import Mathlib

/-!
Verification of the Certificate Deployment & Usage-Tracking Engine
(`backend/services/f5_service_logic.py` and `backend/services/cache_builder.py`).

The Python code is shallowly embedded: pure helpers become Lean functions,
device interactions become oracle records supplying the responses the code
would receive, raised exceptions become `Except` errors, and side-effecting
device calls are recorded in an explicit effect trace.
-/

namespace CertEngine

/-! ## Python string primitives

Character-list implementations of the Python string operations the engine
uses (`in`, `replace`, `split`, `strip`, `lower`), kept executable so that
concrete runs evaluate by `rfl`/`decide`. -/

/-- `isPrefixL pat l` is true when `pat` is a prefix of `l`. -/
def isPrefixL : List Char → List Char → Bool
  | [], _ => true
  | _ :: _, [] => false
  | a :: as, b :: bs => a == b && isPrefixL as bs

/-- `occursL needle l`: does `needle` occur as a contiguous sublist of `l`?
Mirrors Python substring search; the empty needle occurs everywhere. -/
def occursL (needle : List Char) : List Char → Bool
  | [] => needle.isEmpty
  | c :: rest => isPrefixL needle (c :: rest) || occursL needle rest

/-- Python `needle in hay` for strings. -/
def pyIn (needle hay : String) : Bool :=
  occursL needle.data hay.data

/-- Left-to-right non-overlapping replacement on character lists, as Python
`str.replace` behaves for a non-empty pattern (the engine only ever replaces
the non-empty patterns `"*."` and `"."`).  The `fuel` argument makes the
recursion structural; every step consumes at least one character, so calling
with `fuel = l.length` computes the replacement (the fuel-exhausted case then
coincides with the empty-input case). -/
def replaceLAux (pat rep : List Char) : Nat → List Char → List Char
  | 0, l => l
  | _ + 1, [] => []
  | fuel + 1, c :: rest =>
    if isPrefixL pat (c :: rest) && !pat.isEmpty then
      rep ++ replaceLAux pat rep fuel ((c :: rest).drop pat.length)
    else
      c :: replaceLAux pat rep fuel rest

/-- Python `s.replace(pat, rep)` for a non-empty pattern. -/
def pyReplace (s pat rep : String) : String :=
  ⟨replaceLAux pat.data rep.data s.data.length s.data⟩

/-- The whitespace characters that Python `str.strip()` removes. -/
def isPySpace (c : Char) : Bool :=
  c == ' ' || c == '\t' || c == '\n' || c == '\x0d' || c == '\x0b' || c == '\x0c'

/-- Python `s.strip()`. -/
def pyStrip (s : String) : String :=
  ⟨((s.data.dropWhile isPySpace).reverse.dropWhile isPySpace).reverse⟩

/-- Python `s.lower()` (ASCII, which is all the engine compares). -/
def pyLower (s : String) : String :=
  ⟨s.data.map Char.toLower⟩

/-- Python `s.split(sep)` for a single-character separator. -/
def splitL (sep : Char) : List Char → List (List Char)
  | [] => [[]]
  | c :: rest =>
    if c == sep then
      [] :: splitL sep rest
    else
      match splitL sep rest with
      | [] => [[c]]
      | h :: t => (c :: h) :: t

/-- Python `s.split('/')`. -/
def pySplitSlash (s : String) : List String :=
  (splitL '/' s.data).map (fun l => ⟨l⟩)

/-- Python truthiness test for an optional string: `None` and `""` are falsy. -/
def strFalsy : Option String → Bool
  | none => true
  | some s => s.data.isEmpty

/-- Python `str(x)` for an optional string (`str(None) = "None"`). -/
def pyStrOpt : Option String → String
  | none => "None"
  | some s => s

/-! ## ObjectNamer (`derive_object_name_from_pem`)

`derive_object_name_from_pem` parses the PEM via the external certificate
codec and then computes a name from the Common Name and the not-after date.
The parsed material is represented by `ParsedCert`; the codec itself
(`cryptography.x509`) is an out-of-scope collaborator per the spec. -/

/-- Parsed certificate material as handed over by the certificate codec:
the list of CN attributes of the subject (possibly empty) and the
ISO-formatted not-after date. -/
structure ParsedCert where
  subjectCNs : List String
  notAfterIso : String
deriving DecidableEq

/-- Python exception values raised by the engine. -/
inductive PyErr where
  /-- `ValueError(msg)` -/
  | valueError (msg : String)
  /-- `TypeError`, e.g. from `None in some_string` -/
  | typeError (msg : String)
  /-- `IndexError` from subscripting an empty attribute list -/
  | indexError
  /-- `F5SDKError` escaping uncaught from an SDK call -/
  | f5SDKError (msg : String)
deriving DecidableEq

/-- `safe_cn = cn.replace("*.", "star_").replace(".", "_")` -/
def sanitizeCN (cn : String) : String :=
  pyReplace (pyReplace cn "*." "star_") "." "_"

/-- `derive_object_name_from_pem`: takes `subject.get_attributes_for_oid(CN)[0]`
(raising `IndexError` when the subject has no CN attribute) and returns
`f"{safe_cn}_{not_after}"`. -/
def derive_object_name_from_pem (c : ParsedCert) : Except PyErr String :=
  match c.subjectCNs with
  | [] => .error .indexError
  | cn :: _ => .ok (sanitizeCN cn ++ "_" ++ c.notAfterIso)

/-! ## InstallVerifier (`verify_cert_object`)

`verify_cert_object` runs `tmsh list sys file ssl-cert <name> one-line`, parses
it with `_parse_tmsh_oneline_cert`, and returns that result if it carries a
version, SAN entries, or a fingerprint; otherwise it runs the multi-line
listing, parses it with `_parse_openssl_text`, and returns that result if it
carries a version or SAN entries; otherwise it tries a REST `load` of the
object and returns an all-null result marked `"tmsh-list-empty"` (load
succeeded) or `"not-found"` (load raised).  The two text parsers are regex
extractors over command output; their outputs are taken as inputs here. -/

/-- Output of `_parse_tmsh_oneline_cert` (its `source` field is always
`"tmsh-list"`, so it is not stored). -/
structure ParsedOneline where
  version : Option String
  san : List String
  serial : Option String
  notAfter : Option String
  subject : Option String
  issuer : Option String
  fingerprintSha256 : Option String
  objectName : Option String
deriving DecidableEq

/-- Output of `_parse_openssl_text` (no fingerprint or object-name keys). -/
structure ParsedOpenssl where
  version : Option String
  san : List String
  serial : Option String
  notAfter : Option String
  subject : Option String
  issuer : Option String
deriving DecidableEq

/-- The dict returned by `verify_cert_object`.  `san` is `Option` because the
two fallback results set the `san` key to `None`, while the parse results
carry a (possibly empty) list. -/
structure VerifyResult where
  version : Option String
  san : Option (List String)
  serial : Option String
  notAfter : Option String
  subject : Option String
  issuer : Option String
  fingerprintSha256 : Option String
  objectName : Option String
  source : String
deriving DecidableEq

/-- Python truthiness of the `san` value of a `VerifyResult`
(`None` and `[]` are falsy). -/
def optListFalsy : Option (List String) → Bool
  | none => true
  | some l => l.isEmpty

/-- `verify_cert_object`, with the parse results of the two listings and the
outcome of the final REST `load` supplied by the device. -/
def verify_cert_object (object_name : String) (oneline : ParsedOneline)
    (multiline : ParsedOpenssl) (loadOk : Bool) : VerifyResult :=
  if !strFalsy oneline.version || !oneline.san.isEmpty
      || !strFalsy oneline.fingerprintSha256 then
    { version := oneline.version, san := some oneline.san,
      serial := oneline.serial, notAfter := oneline.notAfter,
      subject := oneline.subject, issuer := oneline.issuer,
      fingerprintSha256 := oneline.fingerprintSha256,
      objectName := oneline.objectName, source := "tmsh-list" }
  else if !strFalsy multiline.version || !multiline.san.isEmpty then
    { version := multiline.version, san := some multiline.san,
      serial := multiline.serial, notAfter := multiline.notAfter,
      subject := multiline.subject, issuer := multiline.issuer,
      fingerprintSha256 := none, objectName := some object_name,
      source := "tmsh-list-ml" }
  else if loadOk then
    { version := none, san := none, serial := none, notAfter := none,
      subject := none, issuer := none, fingerprintSha256 := none,
      objectName := some object_name, source := "tmsh-list-empty" }
  else
    { version := none, san := none, serial := none, notAfter := none,
      subject := none, issuer := none, fingerprintSha256 := none,
      objectName := some object_name, source := "not-found" }

/-! ## DeviceTransport: chunked upload (`_rest_upload_bytes`)

The upload loop posts at most 1 MiB per request with an inclusive
`Content-Range: start-(end-1)/total` header and aborts on the first response
whose status is neither 200 nor 202.  Device calls are recorded as `Effect`s;
the response to the `i`-th POST is supplied by the oracle `resp` as a
status/text pair. -/

/-- One recorded device side effect. -/
inductive Effect where
  /-- POST of one chunk with its inclusive byte range and the total size. -/
  | postChunk (filename : String) (start endIncl total : Nat)
  /-- `tmsh install sys crypto cert <objectName> from-local-file ...` -/
  | installCert (objectName : String)
  /-- `tmsh install sys crypto key <objectName> from-local-file ...` -/
  | installKey (objectName : String)
  /-- `profile.modify(certKeyChain=[{name: default, cert, key, chain}])` -/
  | modifyProfile (profileName cert key chain : String)
  /-- deletion of a device object (never emitted by the deployment path) -/
  | deleteObject (objectName : String)
deriving DecidableEq

/-- `chunk = 1024 * 1024` bytes. -/
def uploadChunkSize : Nat := 1024 * 1024

/-- The staging path returned on success:
`/var/config/rest/downloads/<remote_filename>`. -/
def uploadStagingPath (remote_filename : String) : String :=
  "/var/config/rest/downloads/" ++ remote_filename

/-- `resp.status_code in (200, 202)`. -/
def uploadRespOk (status : Nat) : Bool :=
  status == 200 || status == 202

/-- The byte ranges (start inclusive, end exclusive) the upload loop walks
through: `end = min(start + chunk, size)` until `start = size`.  `fuel` makes
the recursion structural; each step advances `start` by at least one byte, so
`fuel = size` suffices and the fuel-exhausted case coincides with the
loop-exit case. -/
def chunkRangesAux (size : Nat) : Nat → Nat → List (Nat × Nat)
  | 0, _ => []
  | fuel + 1, start =>
    if start < size then
      (start, min (start + uploadChunkSize) size) :: chunkRangesAux size fuel (min (start + uploadChunkSize) size)
    else []

/-- All chunk ranges for a payload of `size` bytes. -/
def chunkRanges (size : Nat) : List (Nat × Nat) :=
  chunkRangesAux size size 0

/-- `coversRangeB a b ranges`: the ranges are contiguous, non-overlapping,
non-empty and cover exactly the interval `[a, b)`. -/
def coversRangeB (a b : Nat) : List (Nat × Nat) → Bool
  | [] => a == b
  | (s, e) :: rest => s == a && decide (a < e) && decide (e ≤ b) && coversRangeB e b rest

/-- Body of `_rest_upload_bytes`: the chunk loop, carrying `start` and the
index `i` of the next chunk (used to index the oracle `resp`). -/
def restUploadAux (remote_filename : String) (size : Nat) (resp : Nat → Nat × String) :
    Nat → Nat → Nat → List Effect × Except PyErr String
  | 0, _, _ => ([], .ok (uploadStagingPath remote_filename))
  | fuel + 1, start, i =>
    if start < size then
      let e := min (start + uploadChunkSize) size
      let eff := Effect.postChunk remote_filename start (e - 1) size
      if uploadRespOk (resp i).1 then
        let rest := restUploadAux remote_filename size resp fuel e (i + 1)
        (eff :: rest.1, rest.2)
      else
        ([eff],
          .error (.valueError ("Upload failed for " ++ remote_filename ++ ": "
            ++ toString (resp i).1 ++ " " ++ (resp i).2)))
    else ([], .ok (uploadStagingPath remote_filename))

/-- `_rest_upload_bytes`: uploads `size` bytes in 1 MiB chunks; returns the
effect trace and either the staging path or the raised `ValueError`. -/
def _rest_upload_bytes (size : Nat) (remote_filename : String)
    (resp : Nat → Nat × String) : List Effect × Except PyErr String :=
  restUploadAux remote_filename size resp size 0 0

/-! ## ProfileRewirer (`update_profiles_with_new_cert` and the inline rewire
loop of `deploy_from_pem_and_update_profiles`) -/

/-- One element of a profile's `certKeyChain` list; only the `cert` reference
is read by the engine (`item.get('cert', '')`). -/
structure CertKeyChainItem where
  cert : Option String
deriving DecidableEq

/-- A client-ssl profile as read from the device. -/
structure SslProfile where
  name : String
  fullPath : String
  certKeyChain : List CertKeyChainItem
deriving DecidableEq

/-- `any(old_cert_name in item.get('cert', '') for item in certKeyChain)`.
Python evaluates the generator lazily, so with an empty chain nothing is
evaluated, while a `None` left operand raises `TypeError` at the first item. -/
def anyCertMatch (old_cert_name : Option String) :
    List CertKeyChainItem → Except PyErr Bool
  | [] => .ok false
  | item :: rest =>
    match old_cert_name with
    | none => .error (.typeError
        "\x27in <string>\x27 requires string as left operand, not NoneType")
    | some s =>
      if pyIn s (item.cert.getD "") then .ok true
      else anyCertMatch old_cert_name rest

/-- Boolean form of the match test for a known-string old name. -/
def certMatchesB (s : String) (p : SslProfile) : Bool :=
  p.certKeyChain.any (fun item => pyIn s (item.cert.getD ""))

/-- `item.split('/')[-1]`. -/
def tailName (s : String) : String :=
  (pySplitSlash s).getLastD ""

/-- `sel_names`: each selected entry plus, when it contains a `/`, its tail. -/
def selNamesOf (selected : List String) : List String :=
  selected.foldl (fun acc it =>
    if pyIn "/" it then (acc ++ [it]) ++ [tailName it] else acc ++ [it]) []

/-- Python truthiness of the `selected_profiles` argument (`None` and the
empty list both disable filtering). -/
def selActive (selected : Option (List String)) : Bool :=
  match selected with
  | none => false
  | some l => !l.isEmpty

/-- The error message `update_profiles_with_new_cert` wraps a failed
`profile.modify` into. -/
def updateFailMsg (profileName errText : String) : String :=
  "Failed to update profile \x27" ++ profileName ++ "\x27: " ++ errText

/-- The profile loop of `update_profiles_with_new_cert`: skip profiles not
selected (when filtering is active), test the certificate reference by
substring, modify matching profiles (a failure is wrapped in `ValueError` and
raised immediately), and accumulate the names modified so far.  `modifyErr`
gives, per profile name, the device's error text when `modify` fails. -/
def updateProfilesLoop (old_cert_name : Option String)
    (new_object_name chain_ref : String) (active : Bool) (selNames : List String)
    (modifyErr : String → Option String) :
    List SslProfile → List Effect → List String → List Effect × Except PyErr (List String)
  | [], effs, updated => (effs, .ok updated)
  | p :: rest, effs, updated =>
    if active && !(selNames.contains p.fullPath || selNames.contains p.name) then
      updateProfilesLoop old_cert_name new_object_name chain_ref active selNames
        modifyErr rest effs updated
    else
      match anyCertMatch old_cert_name p.certKeyChain with
      | .error e => (effs, .error e)
      | .ok false =>
        updateProfilesLoop old_cert_name new_object_name chain_ref active selNames
          modifyErr rest effs updated
      | .ok true =>
        match modifyErr p.name with
        | some errText => (effs, .error (.valueError (updateFailMsg p.name errText)))
        | none =>
          updateProfilesLoop old_cert_name new_object_name chain_ref active selNames
            modifyErr rest
            (effs ++ [Effect.modifyProfile p.name ("/Common/" ++ new_object_name)
              ("/Common/" ++ new_object_name) chain_ref])
            (updated ++ [p.name])

/-- `update_profiles_with_new_cert`: the standalone rewire operation.  Note
that it performs no check on `old_cert_name` before matching. -/
def update_profiles_with_new_cert (old_cert_name : Option String)
    (new_cert_name chain_name : String) (selected_profiles : Option (List String))
    (ssl_profiles : List SslProfile) (modifyErr : String → Option String) :
    List Effect × Except PyErr (List String) :=
  let new_object_name := new_cert_name
  let chain_ref := "/Common/" ++ chain_name
  let active := selActive selected_profiles
  let names := if active then selNamesOf (selected_profiles.getD []) else []
  updateProfilesLoop old_cert_name new_object_name chain_ref active names modifyErr
    ssl_profiles [] []

/-! ## DeploymentOrchestrator (`deploy_from_pem_and_update_profiles`) -/

/-- `not old_cert_name or str(old_cert_name).strip() == "" or
str(old_cert_name).lower() in ("none", "null")` — the rewire safeguard. -/
def isNoneLikeOldCert : Option String → Bool
  | none => true
  | some s =>
    s.data.isEmpty || (pyStrip s).data.isEmpty
      || pyLower s == "none" || pyLower s == "null"

/-- `str(details.get("version")) != "3"` failure message. -/
def verFailVersionMsg : String :=
  "Post-install verification failed: certificate is not Version 3 on device."

/-- `not details.get("san")` failure message. -/
def verFailSanMsg : String :=
  "Post-install verification failed: SAN extension not found on installed certificate."

/-- The dict returned by a successful deployment. -/
structure DeployResult where
  new_cert_object : String
  new_cert_name : String
  new_key_name : String
  updated_profiles : List String
  verification : VerifyResult
deriving DecidableEq

/-- The device-side responses a deployment run consumes: chunk-upload
responses for the certificate and key files, outcomes of the two
`tmsh install` commands (`some errText` when the command endpoint reports a
non-success status), the result of the post-install verification, the
client-ssl profile collection, and the per-profile `modify` outcomes. -/
structure DeployDevice where
  certPemSize : Nat
  keyPemSize : Nat
  certUploadResp : Nat → Nat × String
  keyUploadResp : Nat → Nat × String
  installCertErr : Option String
  installKeyErr : Option String
  verification : VerifyResult
  ssl_profiles : List SslProfile
  modifyErr : String → Option String

/-- The rewire loop inlined in `deploy_from_pem_and_update_profiles`: no
selection filter and no `try/except` around `modify`, so a failing `modify`
propagates the raw `F5SDKError`. -/
def deployRewireLoop (old_cert_name : Option String) (object_name chain_ref : String)
    (modifyErr : String → Option String) :
    List SslProfile → List Effect → List String → List Effect × Except PyErr (List String)
  | [], effs, updated => (effs, .ok updated)
  | p :: rest, effs, updated =>
    match anyCertMatch old_cert_name p.certKeyChain with
    | .error e => (effs, .error e)
    | .ok false => deployRewireLoop old_cert_name object_name chain_ref modifyErr rest effs updated
    | .ok true =>
      match modifyErr p.name with
      | some errText => (effs, .error (.f5SDKError errText))
      | none =>
        deployRewireLoop old_cert_name object_name chain_ref modifyErr rest
          (effs ++ [Effect.modifyProfile p.name ("/Common/" ++ object_name)
            ("/Common/" ++ object_name) chain_ref])
          (updated ++ [p.name])

/-- The stable object name `f"{safe_cn}_{not_after}"` computed by the
orchestrator (identical to the `derive_object_name_from_pem` formula). -/
def objectNameOf (cn notAfterIso : String) : String :=
  sanitizeCN cn ++ "_" ++ notAfterIso

/-- `deploy_from_pem_and_update_profiles`: upload certificate and key, install
both, verify (version must be `"3"` and the SAN list non-empty), then — unless
`old_cert_name` is none-like — rewire the matching profiles.  Returns the
device-effect trace together with the result dict or the raised exception. -/
def deploy_from_pem_and_update_profiles (dev : DeployDevice)
    (old_cert_name : Option String) (cn notAfterIso chain_name : String) :
    List Effect × Except PyErr DeployResult :=
  let object_name := objectNameOf cn notAfterIso
  let cert_filename := object_name ++ ".crt"
  let key_filename := object_name ++ ".key"
  match _rest_upload_bytes dev.certPemSize cert_filename dev.certUploadResp with
  | (e1, .error err) => (e1, .error err)
  | (e1, .ok _cert_path) =>
    match _rest_upload_bytes dev.keyPemSize key_filename dev.keyUploadResp with
    | (e2, .error err) => (e1 ++ e2, .error err)
    | (e2, .ok _key_path) =>
      let effs := e1 ++ e2 ++ [Effect.installCert object_name]
      match dev.installCertErr with
      | some m => (effs, .error (.valueError ("tmsh run failed: " ++ m)))
      | none =>
        let effs := effs ++ [Effect.installKey object_name]
        match dev.installKeyErr with
        | some m => (effs, .error (.valueError ("tmsh run failed: " ++ m)))
        | none =>
          let details := dev.verification
          if pyStrOpt details.version ≠ "3" then
            (effs, .error (.valueError verFailVersionMsg))
          else if optListFalsy details.san then
            (effs, .error (.valueError verFailSanMsg))
          else if isNoneLikeOldCert old_cert_name then
            (effs, .ok { new_cert_object := object_name,
                         new_cert_name := object_name ++ ".crt",
                         new_key_name := object_name ++ ".key",
                         updated_profiles := [], verification := details })
          else
            let chain_ref := "/Common/" ++ chain_name
            match deployRewireLoop old_cert_name object_name chain_ref dev.modifyErr
                dev.ssl_profiles [] [] with
            | (e3, .error err) => (effs ++ e3, .error err)
            | (e3, .ok updated) =>
              (effs ++ e3, .ok { new_cert_object := object_name,
                                 new_cert_name := object_name ++ ".crt",
                                 new_key_name := object_name ++ ".key",
                                 updated_profiles := updated, verification := details })

/-- Is an effect a device-object deletion (cleanup)? -/
def isDeleteEffect : Effect → Bool
  | .deleteObject _ => true
  | _ => false

/-- Is an effect a profile modification? -/
def isModifyEffect : Effect → Bool
  | .modifyProfile .. => true
  | _ => false

/-! ## CacheReconciler (`cache_builder.py`)

The three cache tables (`SslProfilesCache`, `CertProfileLinksCache`,
`SslProfileVipsCache`) share the shape device-id + two-string key + payload;
the payload columns other than the key do not influence the reconciliation
delta, so a row is modeled as its device id, key tuple and `updated_at`
stamp.  `refresh_device_profiles_cache` loads the existing key sets for the
device, derives the observed key sets from live queries (per-certificate
`get_certificate_usage`, or the bulk fallback when no certificates are known
locally), upserts every observed row, and deletes `existing − observed`. -/

/-- A cache-table row: device id, key tuple, `updated_at` stamp. -/
structure CacheRow (κ : Type) where
  device : Nat
  key : κ
  stamp : Nat
deriving DecidableEq

/-- Does a row have the given device id and key? -/
def rowMatches [DecidableEq κ] (d : Nat) (k : κ) (r : CacheRow κ) : Bool :=
  decide (r.device = d) && decide (r.key = k)

/-- Does the table contain a row for this device and key? -/
def hasKey [DecidableEq κ] (d : Nat) (k : κ) (t : List (CacheRow κ)) : Bool :=
  t.any (rowMatches d k)

/-- `INSERT ... ON CONFLICT (device, key) DO UPDATE`: refresh the stamp of an
existing row, or append a new row. -/
def upsertRow [DecidableEq κ] (d now : Nat) (k : κ) (t : List (CacheRow κ)) :
    List (CacheRow κ) :=
  if hasKey d k t then
    t.map (fun r => if rowMatches d k r then { r with stamp := now } else r)
  else
    t ++ [⟨d, k, now⟩]

/-- Upsert every observed key. -/
def upsertAll [DecidableEq κ] (d now : Nat) (ks : List κ) (t : List (CacheRow κ)) :
    List (CacheRow κ) :=
  ks.foldl (fun acc k => upsertRow d now k acc) t

/-- Distinct elements of a list (Python set semantics for counting). -/
def dedupKeys [DecidableEq κ] : List κ → List κ
  | [] => []
  | a :: rest => if a ∈ rest then dedupKeys rest else a :: dedupKeys rest

/-- `stale = existing − observed` for one device: the keys of the device's
existing rows that were not observed, as a duplicate-free list. -/
def staleKeys [DecidableEq κ] (d : Nat) (observed : List κ) (t : List (CacheRow κ)) :
    List κ :=
  dedupKeys (((t.filter (fun r => decide (r.device = d))).map (fun r => r.key)).filter
    (fun k => !(decide (k ∈ observed))))

/-- `DELETE WHERE device_id = d AND key IN stale`. -/
def deleteStale [DecidableEq κ] (d : Nat) (stale : List κ) (t : List (CacheRow κ)) :
    List (CacheRow κ) :=
  t.filter (fun r => !(decide (r.device = d) && decide (r.key ∈ stale)))

/-- One table's reconciliation step: upsert all observed keys, delete the
stale rows; returns the new table and the reported number of stale keys. -/
def reconcileTable [DecidableEq κ] (d now : Nat) (observed : List κ)
    (t : List (CacheRow κ)) : List (CacheRow κ) × Nat :=
  let stale := staleKeys d observed t
  (deleteStale d stale (upsertAll d now observed t), stale.length)

/-- A virtual server as reported by `get_certificate_usage`: its name and the
full paths of its attached profiles. -/
structure VirtualServerInfo where
  name : String
  profiles : List String
deriving DecidableEq

/-- The result of `get_certificate_usage`. -/
structure UsageInfo where
  profiles : List String
  virtual_servers : List VirtualServerInfo
deriving DecidableEq

/-- A VIP dict as returned by `get_ssl_profile_vips` (only the fields the
fallback uses for the row key). -/
structure VipDict where
  name : Option String
  fullPath : Option String
  vip : Option String
deriving DecidableEq

/-- Python `a or b` for an optional string `a` (None and `""` are falsy). -/
def pyOrStr (a : Option String) (b : String) : String :=
  match a with
  | none => b
  | some s => if s.data.isEmpty then b else s

/-- `vip.get("name") or vip.get("fullPath") or vip.get("vip") or "unknown"`. -/
def resolveVipName (v : VipDict) : String :=
  pyOrStr v.name (pyOrStr v.fullPath (pyOrStr v.vip "unknown"))

/-- A bulk profile dict as emitted by `list_client_ssl_profiles_bulk`; the
fallback reads its `name` and `partition` keys (and looks up a `certificate`
key that the bulk lister never emits — it emits `cert_name`/`cert_full`). -/
structure BulkProfile where
  name : Option String
  partition : String
  cert_name : Option String
deriving DecidableEq

/-- `_fullpath(partition, name)`. -/
def _fullpath (partition name : String) : String :=
  let partition := if partition.data.isEmpty then "Common" else partition
  if isPrefixL ['/'] name.data then name else "/" ++ partition ++ "/" ++ name

/-- Split a profile full path into partition and name as the cert-driven
reconciliation loop does: `parts = pf.split("/")`; with at least three parts,
partition is `parts[1] or "Common"` and name is `parts[2]`, else the path is
taken as the name in partition `"Common"`. -/
def parseProfilePath (pf : String) : String × String :=
  let parts := pySplitSlash pf
  if parts.length ≥ 3 then
    (let p1 := (parts.get? 1).getD ""
     ((if p1.data.isEmpty then "Common" else p1), (parts.get? 2).getD ""))
  else ("Common", pf)

/-- Append an element unless already present (the `seen`-set guards). -/
def addNew [DecidableEq α] (l : List α) (a : α) : List α :=
  if a ∈ l then l else l ++ [a]

/-- Key tuple of the cache tables: two strings. -/
abbrev SKey := String × String

/-- The three observed key sets of one reconciliation run. -/
structure ObservedRows where
  profileKeys : List SKey
  linkKeys : List SKey
  vipKeys : List SKey
deriving DecidableEq

/-- The live-device responses one reconciliation run consumes: the locally
known certificates (name, partition), `get_certificate_usage` per certificate,
the bulk profile listing and per-profile VIPs for the fallback path, and an
optional database write failure. -/
structure CacheOracle where
  certs : List (String × String)
  usageOf : String → String → Except String UsageInfo
  bulkProfiles : Except String (List BulkProfile)
  vipsOf : String → Except String (List VipDict)
  writeErr : Option String

/-- Accumulate the observed rows contributed by one certificate's usage:
profile keys `(partition, name)`, link keys `(cert_name, profile_full_path)`,
and VIP keys `(profile_full_path, vip_name)` for each virtual server whose
profile list contains the raw profile path. -/
def observeCertUsage (certName : String) (usage : UsageInfo) (acc : ObservedRows) :
    ObservedRows :=
  usage.profiles.foldl (fun acc pf =>
    let pn := parseProfilePath pf
    let fullpath := _fullpath pn.1 pn.2
    let vipNames := (usage.virtual_servers.filter
      (fun vs => decide (pf ∈ vs.profiles))).map (fun vs => vs.name)
    let acc := { acc with profileKeys := addNew acc.profileKeys (pn.1, pn.2) }
    let acc := { acc with linkKeys := addNew acc.linkKeys (certName, fullpath) }
    vipNames.foldl (fun acc vn =>
      { acc with vipKeys := addNew acc.vipKeys (fullpath, vn) }) acc) acc

/-- The cert-driven build of the observed key sets (the main path of
`refresh_device_profiles_cache`): query usage per certificate and accumulate;
any query failure propagates. -/
def buildFromCerts (o : CacheOracle) : Except String ObservedRows :=
  o.certs.foldlM (fun acc cert => do
    let usage ← o.usageOf cert.1 (if cert.2.data.isEmpty then "Common" else cert.2)
    pure (observeCertUsage cert.1 usage acc)) ⟨[], [], []⟩

/-- `_fallback_build_from_device`: derive the observed key sets from the bulk
profile listing and per-profile VIP queries.  No link keys are produced
because the code reads `profile.get("certificate")`, a key the bulk lister
never sets. -/
def buildFromBulk (o : CacheOracle) : Except String ObservedRows := do
  let profiles ← o.bulkProfiles
  profiles.foldlM (fun acc bp =>
    if strFalsy bp.name then pure acc
    else do
      let name := bp.name.getD ""
      let fullpath := _fullpath bp.partition name
      let acc := { acc with profileKeys := addNew acc.profileKeys (bp.partition, name) }
      let vips ← o.vipsOf fullpath
      pure (vips.foldl (fun acc v =>
        { acc with vipKeys := addNew acc.vipKeys (fullpath, resolveVipName v) }) acc))
    ⟨[], [], []⟩

/-- The observed key sets of a run: cert-driven when local certificates
exist, bulk fallback otherwise. -/
def observedFor (o : CacheOracle) : Except String ObservedRows :=
  if o.certs.isEmpty then buildFromBulk o else buildFromCerts o

/-- The three cache tables. -/
structure CacheState where
  profilesTable : List (CacheRow SKey)
  linksTable : List (CacheRow SKey)
  vipsTable : List (CacheRow SKey)
deriving DecidableEq

/-- The structured result of a reconciliation run: the success dict carries
the reported deletion count inside its message; the failure dict carries the
underlying exception message. -/
inductive RefreshResult where
  | success (deleted : Nat) (message : String)
  | failure (message : String)
deriving DecidableEq

/-- The `status` field of the returned dict. -/
def RefreshResult.status : RefreshResult → String
  | .success _ _ => "success"
  | .failure _ => "error"

/-- `refresh_device_profiles_cache`: one reconciliation run for `device_id`
inside a single transaction.  Any exception (device query failure or database
write failure) rolls the transaction back — the state is returned unchanged —
and yields a soft `status = "error"` result instead of raising. -/
def refresh_device_profiles_cache (device_id now : Nat) (o : CacheOracle)
    (st : CacheState) : CacheState × RefreshResult :=
  match observedFor o with
  | .error e => (st, .failure e)
  | .ok obs =>
    match o.writeErr with
    | some e => (st, .failure e)
    | none =>
      let rp := reconcileTable device_id now obs.profileKeys st.profilesTable
      let rl := reconcileTable device_id now obs.linkKeys st.linksTable
      let rv := reconcileTable device_id now obs.vipKeys st.vipsTable
      (⟨rp.1, rl.1, rv.1⟩,
        .success (rp.2 + rl.2 + rv.2)
          ("Cache built (delta): deleted=" ++ toString (rp.2 + rl.2 + rv.2)))

/-- The effect trace a deployment has produced once both uploads and both
install commands have succeeded: all cert chunks, all key chunks, then the
two install commands. -/
def deployBaseEffects (dev : DeployDevice) (cn notAfterIso : String) : List Effect :=
  (chunkRanges dev.certPemSize).map
      (fun pr => Effect.postChunk (objectNameOf cn notAfterIso ++ ".crt") pr.1 (pr.2 - 1)
        dev.certPemSize)
    ++ (chunkRanges dev.keyPemSize).map
      (fun pr => Effect.postChunk (objectNameOf cn notAfterIso ++ ".key") pr.1 (pr.2 - 1)
        dev.keyPemSize)
    ++ [Effect.installCert (objectNameOf cn notAfterIso)]
    ++ [Effect.installKey (objectNameOf cn notAfterIso)]

/-- Rows of other devices: the frame predicate for claim-style statements. -/
def notDev {κ : Type} (d : Nat) (r : CacheRow κ) : Bool :=
  !(decide (r.device = d))

/-- Did the deployment raise one of the two post-install verification
failures? -/
def isVerifFailure (r : Except PyErr DeployResult) : Prop :=
  r = .error (.valueError verFailVersionMsg) ∨ r = .error (.valueError verFailSanMsg)

/-- The modify effects the update loop emits for the matching profiles of a
candidate list, in order. -/
def matchedModifies (s new_object_name chain_ref : String) (ps : List SslProfile) :
    List Effect :=
  (ps.filter (certMatchesB s)).map (fun q =>
    Effect.modifyProfile q.name ("/Common/" ++ new_object_name)
      ("/Common/" ++ new_object_name) chain_ref)

/-! ### Concrete fixtures used by counterexamples and witnesses -/

/-- A one-line parse carrying no usable data at all. -/
def verifyEmptyOneline : ParsedOneline :=
  ⟨none, [], none, none, none, none, none, none⟩

/-- A multi-line parse carrying no usable data at all. -/
def verifyEmptyOpenssl : ParsedOpenssl :=
  ⟨none, [], none, none, none, none⟩

/-- A profile whose certificate reference is `/Common/other_cert.crt`. -/
def cexProfile : SslProfile :=
  ⟨"p1", "/Common/p1", [⟨some "/Common/other_cert.crt"⟩]⟩

/-- A successful verification result: version 3 with one SAN entry. -/
def verifyOkResult : VerifyResult :=
  { version := some "3", san := some ["example.com"], serial := none,
    notAfter := none, subject := none, issuer := none,
    fingerprintSha256 := none, objectName := none, source := "tmsh-list" }

/-- A failed verification result: version 1 and empty SAN list. -/
def verifyBadResult : VerifyResult :=
  { version := some "1", san := some [], serial := none,
    notAfter := none, subject := none, issuer := none,
    fingerprintSha256 := none, objectName := none, source := "tmsh-list" }

/-- A deploy device that accepts everything (empty payloads, all responses
successful, verification reports version 3 with a SAN). -/
def devAccept : DeployDevice :=
  { certPemSize := 0, keyPemSize := 0,
    certUploadResp := fun _ => (200, ""), keyUploadResp := fun _ => (200, ""),
    installCertErr := none, installKeyErr := none,
    verification := verifyOkResult,
    ssl_profiles := [⟨"p1", "/Common/p1", [⟨some "/Common/old.crt"⟩]⟩],
    modifyErr := fun _ => none }

/-- Like `devAccept` but the installed certificate verifies as version 1 with
no SAN entries. -/
def devRejectV1 : DeployDevice :=
  { certPemSize := 0, keyPemSize := 0,
    certUploadResp := fun _ => (200, ""), keyUploadResp := fun _ => (200, ""),
    installCertErr := none, installKeyErr := none,
    verification := verifyBadResult,
    ssl_profiles := [⟨"p1", "/Common/p1", [⟨some "/Common/old.crt"⟩]⟩],
    modifyErr := fun _ => none }

/-- A profile referencing the old certificate whose `modify` succeeds. -/
def profQ1 : SslProfile := ⟨"q1", "/Common/q1", [⟨some "/Common/old_cert.crt"⟩]⟩

/-- A profile referencing the old certificate whose `modify` fails. -/
def profP2 : SslProfile := ⟨"p2", "/Common/p2", [⟨some "/Common/old_cert.crt"⟩]⟩

/-- A matching profile after the failing one. -/
def profR3 : SslProfile := ⟨"r3", "/Common/r3", [⟨some "/Common/old_cert.crt"⟩]⟩

/-- Modify outcomes: only profile `p2` fails, with error text `boom`. -/
def modifyFailP2 : String → Option String :=
  fun n => if n = "p2" then some "boom" else none

/-- Upload responses: chunk 0 succeeds, every later chunk fails. -/
def respFailAt1 : Nat → Nat × String :=
  fun i => if i = 0 then (200, "") else (500, "Server Error")

/-- An oracle whose live usage query raises. -/
def oracleUsageFails : CacheOracle :=
  { certs := [("c1", "Common")],
    usageOf := fun _ _ => .error "connection refused",
    bulkProfiles := .ok [], vipsOf := fun _ => .ok [], writeErr := none }

/-- An oracle with one local certificate used by one profile and one VIP. -/
def oracleOneCert : CacheOracle :=
  { certs := [("c1", "Common")],
    usageOf := fun _ _ => .ok ⟨["/Common/p1"], [⟨"vs1", ["/Common/p1"]⟩]⟩,
    bulkProfiles := .ok [], vipsOf := fun _ => .ok [], writeErr := none }

/-- The cache state `oracleOneCert` produces from an empty state at stamp 7. -/
def stateAfterFirstRun : CacheState :=
  ⟨[⟨1, ("Common", "p1"), 7⟩], [⟨1, ("c1", "/Common/p1"), 7⟩],
    [⟨1, ("/Common/p1", "vs1"), 7⟩]⟩

end CertEngine

deriving instance DecidableEq for Except

namespace CertEngine

/-! ## Lemmas -/

theorem anyCertMatch_some (s : String) (items : List CertKeyChainItem) :
    anyCertMatch (some s) items
      = .ok (items.any (fun item => pyIn s (item.cert.getD ""))) := by
  induction items with
  | nil => rfl
  | cons item rest ih =>
    simp only [anyCertMatch, List.any_cons]
    by_cases h : pyIn s (item.cert.getD "") = true
    · simp [h]
    · simp only [Bool.not_eq_true] at h
      simp [h, ih]

theorem uploadChunkSize_pos : 0 < uploadChunkSize := by decide

theorem chunkRangesAux_covers (size : Nat) :
    ∀ fuel start, start ≤ size → size - start ≤ fuel →
      coversRangeB start size (chunkRangesAux size fuel start) = true := by
  intro fuel
  induction fuel with
  | zero =>
    intro start h1 h2
    have h3 : start = size := by omega
    subst h3
    simp [chunkRangesAux, coversRangeB]
  | succ n ih =>
    intro start h1 h2
    by_cases h : start < size
    · have he1 : start < min (start + uploadChunkSize) size := by
        have := uploadChunkSize_pos
        omega
      have he2 : min (start + uploadChunkSize) size ≤ size := min_le_right _ _
      simp only [chunkRangesAux, if_pos h, coversRangeB]
      have ihx := ih (min (start + uploadChunkSize) size) he2 (by omega)
      simp [he1, he2, ihx]
    · have h3 : start = size := by omega
      subst h3
      simp [chunkRangesAux, coversRangeB]

theorem chunkRangesAux_le (size : Nat) :
    ∀ fuel start pr, pr ∈ chunkRangesAux size fuel start →
      pr.2 - pr.1 ≤ uploadChunkSize := by
  intro fuel
  induction fuel with
  | zero => intro start pr hpr; simp [chunkRangesAux] at hpr
  | succ n ih =>
    intro start pr hpr
    by_cases h : start < size
    · simp only [chunkRangesAux, if_pos h, List.mem_cons] at hpr
      rcases hpr with hpr | hpr
      · subst hpr
        have := min_le_left (start + uploadChunkSize) size
        simp only []
        omega
      · exact ih _ pr hpr
    · simp [chunkRangesAux, if_neg h] at hpr

theorem restUploadAux_effects_post (fn : String) (size : Nat)
    (resp : Nat → Nat × String) :
    ∀ fuel start i, ∀ e ∈ (restUploadAux fn size resp fuel start i).1,
      ∃ s en, e = Effect.postChunk fn s en size := by
  intro fuel
  induction fuel with
  | zero => intro start i e he; simp [restUploadAux] at he
  | succ n ih =>
    intro start i e he
    by_cases h : start < size
    · simp only [restUploadAux, if_pos h] at he
      by_cases hr : uploadRespOk (resp i).1 = true
      · simp only [hr, if_pos] at he
        rcases List.mem_cons.mp he with he | he
        · exact ⟨_, _, he⟩
        · exact ih _ _ e he
      · simp only [Bool.not_eq_true] at hr
        simp [hr] at he
        exact ⟨_, _, he⟩
    · simp [restUploadAux, if_neg h] at he

theorem restUploadAux_eq_of_ok (fn : String) (size : Nat)
    (resp : Nat → Nat × String) :
    ∀ fuel start i,
      (∀ j, j < (chunkRangesAux size fuel start).length →
        uploadRespOk (resp (i + j)).1 = true) →
      restUploadAux fn size resp fuel start i
        = ((chunkRangesAux size fuel start).map
            (fun pr => Effect.postChunk fn pr.1 (pr.2 - 1) size),
           .ok (uploadStagingPath fn)) := by
  intro fuel
  induction fuel with
  | zero => intro start i _; simp [restUploadAux, chunkRangesAux]
  | succ n ih =>
    intro start i hok
    by_cases h : start < size
    · have hlen : (chunkRangesAux size (n + 1) start).length
          = (chunkRangesAux size n (min (start + uploadChunkSize) size)).length + 1 := by
        simp [chunkRangesAux, if_pos h]
      have h0 : uploadRespOk (resp i).1 = true := by
        have := hok 0 (by omega)
        simpa using this
      have ihx := ih (min (start + uploadChunkSize) size) (i + 1) (fun j hj => by
        have := hok (j + 1) (by omega)
        have harith : i + (j + 1) = i + 1 + j := by omega
        rwa [harith] at this)
      simp [restUploadAux, chunkRangesAux, if_pos h, h0, ihx]
    · simp [restUploadAux, chunkRangesAux, if_neg h]

theorem restUploadAux_eq_of_firstBad (fn : String) (size : Nat)
    (resp : Nat → Nat × String) :
    ∀ fuel start i k,
      k < (chunkRangesAux size fuel start).length →
      (∀ j, j < k → uploadRespOk (resp (i + j)).1 = true) →
      uploadRespOk (resp (i + k)).1 = false →
      restUploadAux fn size resp fuel start i
        = (((chunkRangesAux size fuel start).take (k + 1)).map
            (fun pr => Effect.postChunk fn pr.1 (pr.2 - 1) size),
           .error (.valueError ("Upload failed for " ++ fn ++ ": "
             ++ toString (resp (i + k)).1 ++ " " ++ (resp (i + k)).2))) := by
  intro fuel
  induction fuel with
  | zero => intro start i k hk _ _; simp [chunkRangesAux] at hk
  | succ n ih =>
    intro start i k hk hpre hbad
    by_cases h : start < size
    · cases k with
      | zero =>
        have hbad0 : uploadRespOk (resp i).1 = false := by simpa using hbad
        simp [restUploadAux, chunkRangesAux, if_pos h, hbad0]
      | succ k' =>
        have h0 : uploadRespOk (resp i).1 = true := by
          have := hpre 0 (by omega)
          simpa using this
        have hk' : k' < (chunkRangesAux size n (min (start + uploadChunkSize) size)).length := by
          have : (chunkRangesAux size (n + 1) start).length
              = (chunkRangesAux size n (min (start + uploadChunkSize) size)).length + 1 := by
            simp [chunkRangesAux, if_pos h]
          omega
        have hpre' : ∀ j, j < k' → uploadRespOk (resp (i + 1 + j)).1 = true := by
          intro j hj
          have := hpre (j + 1) (by omega)
          have harith : i + (j + 1) = i + 1 + j := by omega
          rwa [harith] at this
        have hbad' : uploadRespOk (resp (i + 1 + k')).1 = false := by
          have harith : i + (k' + 1) = i + 1 + k' := by omega
          rwa [harith] at hbad
        have ihx := ih (min (start + uploadChunkSize) size) (i + 1) k' hk' hpre' hbad'
        have harith : i + 1 + k' = i + (k' + 1) := by omega
        rw [harith] at ihx
        simp [restUploadAux, chunkRangesAux, if_pos h, h0, ihx]
    · simp [chunkRangesAux, if_neg h] at hk

theorem anyCertMatch_error_shape (old : Option String)
    (items : List CertKeyChainItem) (e : PyErr)
    (h : anyCertMatch old items = .error e) : ∃ m, e = .typeError m := by
  induction items with
  | nil => simp [anyCertMatch] at h
  | cons item rest ih =>
    cases old with
    | none =>
      simp only [anyCertMatch] at h
      have h2 := (Except.error.injEq _ _).mp h
      exact ⟨_, h2.symm⟩
    | some s =>
      simp only [anyCertMatch] at h
      by_cases hp : pyIn s (item.cert.getD "") = true
      · simp [hp] at h
      · simp only [Bool.not_eq_true] at hp
        simp only [hp, Bool.false_eq_true, if_false] at h
        exact ih h

theorem deployRewireLoop_error_shape (old : Option String) (obj chain : String)
    (f : String → Option String) :
    ∀ ps effs upd e, (deployRewireLoop old obj chain f ps effs upd).2 = .error e →
      (∃ m, e = .typeError m) ∨ (∃ m, e = .f5SDKError m) := by
  intro ps
  induction ps with
  | nil => intro effs upd e h; simp [deployRewireLoop] at h
  | cons p rest ih =>
    intro effs upd e h
    simp only [deployRewireLoop] at h
    cases ham : anyCertMatch old p.certKeyChain with
    | error e' =>
      rw [ham] at h
      simp only at h
      have h2 : e' = e := (Except.error.injEq _ _).mp h
      subst h2
      exact Or.inl (anyCertMatch_error_shape old p.certKeyChain e' ham)
    | ok b =>
      rw [ham] at h
      cases b with
      | false => exact ih effs upd e h
      | true =>
        cases hm : f p.name with
        | some errText =>
          rw [hm] at h
          simp only at h
          exact Or.inr ⟨errText, by simpa using h.symm⟩
        | none =>
          rw [hm] at h
          exact ih _ _ e h

theorem deployRewireLoop_effects (old : Option String) (obj chain : String)
    (f : String → Option String) :
    ∀ ps effs upd e, e ∈ (deployRewireLoop old obj chain f ps effs upd).1 →
      e ∈ effs ∨ isModifyEffect e = true := by
  intro ps
  induction ps with
  | nil => intro effs upd e h; exact Or.inl (by simpa [deployRewireLoop] using h)
  | cons p rest ih =>
    intro effs upd e h
    simp only [deployRewireLoop] at h
    cases ham : anyCertMatch old p.certKeyChain with
    | error e' =>
      rw [ham] at h
      exact Or.inl (by simpa using h)
    | ok b =>
      rw [ham] at h
      cases b with
      | false => exact ih effs upd e h
      | true =>
        cases hm : f p.name with
        | some errText =>
          rw [hm] at h
          exact Or.inl (by simpa using h)
        | none =>
          rw [hm] at h
          rcases ih _ _ e h with hmem | hmod
          · rcases List.mem_append.mp hmem with hmem | hmem
            · exact Or.inl hmem
            · exact Or.inr (by rcases List.mem_singleton.mp hmem with rfl; rfl)
          · exact Or.inr hmod

theorem mem_installCert_base (dev : DeployDevice) (cn iso : String) :
    Effect.installCert (objectNameOf cn iso) ∈ deployBaseEffects dev cn iso := by
  simp [deployBaseEffects]

theorem mem_installKey_base (dev : DeployDevice) (cn iso : String) :
    Effect.installKey (objectNameOf cn iso) ∈ deployBaseEffects dev cn iso := by
  simp [deployBaseEffects]

theorem deployBaseEffects_not_modify (dev : DeployDevice) (cn iso : String) :
    ∀ e ∈ deployBaseEffects dev cn iso, isModifyEffect e = false := by
  intro e he
  simp only [deployBaseEffects, List.append_assoc, List.mem_append, List.mem_map,
    List.mem_singleton] at he
  rcases he with ⟨pr, _, rfl⟩ | ⟨pr, _, rfl⟩ | rfl | rfl <;> rfl

theorem deployBaseEffects_not_delete (dev : DeployDevice) (cn iso : String) :
    ∀ e ∈ deployBaseEffects dev cn iso, isDeleteEffect e = false := by
  intro e he
  simp only [deployBaseEffects, List.append_assoc, List.mem_append, List.mem_map,
    List.mem_singleton] at he
  rcases he with ⟨pr, _, rfl⟩ | ⟨pr, _, rfl⟩ | rfl | rfl <;> rfl

theorem rest_upload_ok (size : Nat) (fn : String) (resp : Nat → Nat × String)
    (hall : ∀ j, uploadRespOk (resp j).1 = true) :
    _rest_upload_bytes size fn resp
      = ((chunkRanges size).map (fun pr => Effect.postChunk fn pr.1 (pr.2 - 1) size),
         .ok (uploadStagingPath fn)) := by
  have := restUploadAux_eq_of_ok fn size resp size 0 0 (fun j _ => by simpa using hall j)
  simpa [_rest_upload_bytes, chunkRanges] using this

theorem updateProfilesLoop_prefix_fail (s new chain_ref errText : String)
    (p : SslProfile) (post : List SslProfile) (modifyErr : String → Option String)
    (hmatch : certMatchesB s p = true)
    (hfail : modifyErr p.name = some errText) :
    ∀ pre effs upd,
      (∀ q ∈ pre, certMatchesB s q = true → modifyErr q.name = none) →
      updateProfilesLoop (some s) new chain_ref false [] modifyErr (pre ++ p :: post)
          effs upd
        = (effs ++ matchedModifies s new chain_ref pre,
           .error (.valueError (updateFailMsg p.name errText))) := by
  intro pre
  induction pre with
  | nil =>
    intro effs upd _
    have hmatch' : p.certKeyChain.any (fun item => pyIn s (item.cert.getD "")) = true := by
      simpa [certMatchesB] using hmatch
    simp [updateProfilesLoop, anyCertMatch_some, hmatch', hfail, matchedModifies]
  | cons q pre ih =>
    intro effs upd hpre
    simp only [List.cons_append, updateProfilesLoop, Bool.false_and,
      Bool.false_eq_true, if_false, anyCertMatch_some]
    by_cases hq : certMatchesB s q = true
    · have hqAny : q.certKeyChain.any (fun item => pyIn s (item.cert.getD "")) = true := by
        simpa [certMatchesB] using hq
      have hnone := hpre q (List.mem_cons_self q pre) hq
      rw [hqAny, hnone]
      refine (ih (effs ++ [Effect.modifyProfile q.name ("/Common/" ++ new)
          ("/Common/" ++ new) chain_ref]) (upd ++ [q.name])
          (fun r hr hm => hpre r (List.mem_cons_of_mem q hr) hm)).trans ?_
      simp [matchedModifies, List.filter_cons, hq, List.append_assoc]
    · have hqAny : q.certKeyChain.any (fun item => pyIn s (item.cert.getD "")) = false := by
        simpa [certMatchesB] using hq
      rw [hqAny]
      refine (ih effs upd (fun r hr hm => hpre r (List.mem_cons_of_mem q hr) hm)).trans ?_
      have hq' : certMatchesB s q = false := by simpa using hq
      simp [matchedModifies, List.filter_cons, hq']

theorem deploy_unfold (dev : DeployDevice) (old : Option String) (cn iso chain : String)
    (hcu : ∀ i, uploadRespOk (dev.certUploadResp i).1 = true)
    (hku : ∀ i, uploadRespOk (dev.keyUploadResp i).1 = true)
    (hic : dev.installCertErr = none) (hik : dev.installKeyErr = none) :
    deploy_from_pem_and_update_profiles dev old cn iso chain
      = (if pyStrOpt dev.verification.version ≠ "3" then
          (deployBaseEffects dev cn iso, .error (.valueError verFailVersionMsg))
        else if optListFalsy dev.verification.san then
          (deployBaseEffects dev cn iso, .error (.valueError verFailSanMsg))
        else if isNoneLikeOldCert old then
          (deployBaseEffects dev cn iso,
            .ok { new_cert_object := objectNameOf cn iso,
                  new_cert_name := objectNameOf cn iso ++ ".crt",
                  new_key_name := objectNameOf cn iso ++ ".key",
                  updated_profiles := [], verification := dev.verification })
        else
          match deployRewireLoop old (objectNameOf cn iso) ("/Common/" ++ chain)
              dev.modifyErr dev.ssl_profiles [] [] with
          | (e3, .error err) => (deployBaseEffects dev cn iso ++ e3, .error err)
          | (e3, .ok updated) =>
            (deployBaseEffects dev cn iso ++ e3,
              .ok { new_cert_object := objectNameOf cn iso,
                    new_cert_name := objectNameOf cn iso ++ ".crt",
                    new_key_name := objectNameOf cn iso ++ ".key",
                    updated_profiles := updated, verification := dev.verification })) := by
  simp only [deploy_from_pem_and_update_profiles,
    rest_upload_ok dev.certPemSize (objectNameOf cn iso ++ ".crt") dev.certUploadResp hcu,
    rest_upload_ok dev.keyPemSize (objectNameOf cn iso ++ ".key") dev.keyUploadResp hku,
    hic, hik, deployBaseEffects]

section CacheLemmas

variable {κ : Type} [DecidableEq κ]

theorem hasKey_map_stamp (d now : Nat) (k : κ) (d2 : Nat) (k2 : κ)
    (t : List (CacheRow κ)) :
    hasKey d2 k2 (t.map fun r => if rowMatches d k r then { r with stamp := now } else r)
      = hasKey d2 k2 t := by
  induction t with
  | nil => rfl
  | cons r rest ih =>
    simp only [List.map_cons, hasKey, List.any_cons] at ih ⊢
    by_cases hm : rowMatches d k r = true
    · rw [if_pos hm, ih]
      rfl
    · rw [if_neg hm, ih]

theorem hasKey_upsertRow (d now : Nat) (k : κ) (d2 : Nat) (k2 : κ)
    (t : List (CacheRow κ)) :
    hasKey d2 k2 (upsertRow d now k t) = true
      ↔ (hasKey d2 k2 t = true ∨ (d2 = d ∧ k2 = k)) := by
  unfold upsertRow
  by_cases h : hasKey d k t = true
  · rw [if_pos h, hasKey_map_stamp]
    constructor
    · exact Or.inl
    · rintro (hh | ⟨rfl, rfl⟩)
      · exact hh
      · exact h
  · rw [if_neg h]
    simp only [hasKey, List.any_append, List.any_cons, List.any_nil, Bool.or_false,
      Bool.or_eq_true]
    constructor
    · rintro (hh | hm)
      · exact Or.inl hh
      · simp only [rowMatches, Bool.and_eq_true, decide_eq_true_eq] at hm
        exact Or.inr ⟨hm.1.symm, hm.2.symm⟩
    · rintro (hh | ⟨rfl, rfl⟩)
      · exact Or.inl hh
      · exact Or.inr (by simp [rowMatches])

theorem hasKey_upsertAll (d now d2 : Nat) (k2 : κ) :
    ∀ (ks : List κ) (t : List (CacheRow κ)),
      hasKey d2 k2 (upsertAll d now ks t) = true
        ↔ (hasKey d2 k2 t = true ∨ (d2 = d ∧ k2 ∈ ks)) := by
  intro ks
  induction ks with
  | nil => intro t; simp [upsertAll]
  | cons k ks ih =>
    intro t
    rw [show upsertAll d now (k :: ks) t = upsertAll d now ks (upsertRow d now k t)
      from rfl]
    rw [ih, hasKey_upsertRow]
    constructor
    · rintro ((hh | ⟨rfl, rfl⟩) | ⟨rfl, hm⟩)
      · exact Or.inl hh
      · exact Or.inr ⟨rfl, List.mem_cons_self _ _⟩
      · exact Or.inr ⟨rfl, List.mem_cons_of_mem _ hm⟩
    · rintro (hh | ⟨rfl, hm⟩)
      · exact Or.inl (Or.inl hh)
      · rcases List.mem_cons.mp hm with rfl | hm
        · exact Or.inl (Or.inr ⟨rfl, rfl⟩)
        · exact Or.inr ⟨rfl, hm⟩

theorem length_upsertRow_of_hasKey (d now : Nat) (k : κ) (t : List (CacheRow κ))
    (h : hasKey d k t = true) : (upsertRow d now k t).length = t.length := by
  rw [upsertRow, if_pos h, List.length_map]

theorem length_upsertAll (d now : Nat) :
    ∀ (ks : List κ) (t : List (CacheRow κ)),
      (∀ k ∈ ks, hasKey d k t = true) →
      (upsertAll d now ks t).length = t.length := by
  intro ks
  induction ks with
  | nil => intro t _; rfl
  | cons k ks ih =>
    intro t hall
    rw [show upsertAll d now (k :: ks) t = upsertAll d now ks (upsertRow d now k t)
      from rfl]
    rw [ih _ (fun k2 hk2 => (hasKey_upsertRow d now k d k2 t).mpr
        (Or.inl (hall k2 (List.mem_cons_of_mem _ hk2)))),
      length_upsertRow_of_hasKey d now k t (hall k (List.mem_cons_self _ _))]

theorem mem_dedupKeys (a : κ) : ∀ l : List κ, a ∈ dedupKeys l ↔ a ∈ l := by
  intro l
  induction l with
  | nil => simp [dedupKeys]
  | cons b l ih =>
    by_cases hb : b ∈ l
    · rw [dedupKeys, if_pos hb, ih]
      constructor
      · exact fun h => List.mem_cons_of_mem _ h
      · rintro h
        rcases List.mem_cons.mp h with rfl | h
        · exact hb
        · exact h
    · rw [dedupKeys, if_neg hb]
      simp [List.mem_cons, ih]

theorem mem_staleKeys (d : Nat) (obs : List κ) (t : List (CacheRow κ)) (k : κ) :
    k ∈ staleKeys d obs t ↔ (hasKey d k t = true ∧ k ∉ obs) := by
  unfold staleKeys
  rw [mem_dedupKeys]
  simp only [List.mem_filter, List.mem_map, List.mem_filter, hasKey,
    List.any_eq_true, rowMatches, Bool.and_eq_true, decide_eq_true_eq,
    Bool.not_eq_true', decide_eq_false_iff_not]
  constructor
  · rintro ⟨⟨r, ⟨hr, hdev⟩, rfl⟩, hno⟩
    exact ⟨⟨r, hr, hdev, rfl⟩, hno⟩
  · rintro ⟨⟨r, hr, hdev, rfl⟩, hno⟩
    exact ⟨⟨r, ⟨hr, hdev⟩, rfl⟩, hno⟩

theorem hasKey_deleteStale (d : Nat) (stale : List κ) (d2 : Nat) (k2 : κ)
    (t : List (CacheRow κ)) :
    hasKey d2 k2 (deleteStale d stale t) = true
      ↔ (hasKey d2 k2 t = true ∧ ¬(d2 = d ∧ k2 ∈ stale)) := by
  simp only [deleteStale, hasKey, List.any_eq_true, List.mem_filter, rowMatches,
    Bool.and_eq_true, decide_eq_true_eq, Bool.not_eq_true',
    Bool.and_eq_false_iff, decide_eq_false_iff_not]
  constructor
  · rintro ⟨r, ⟨hr, hp⟩, hdev, hkey⟩
    subst hdev
    subst hkey
    refine ⟨⟨r, hr, rfl, rfl⟩, ?_⟩
    rintro ⟨rfl, hmem⟩
    rcases hp with hp | hp
    · exact hp rfl
    · exact hp hmem
  · rintro ⟨⟨r, hr, hdev, hkey⟩, hnot⟩
    subst hdev
    subst hkey
    refine ⟨r, ⟨hr, ?_⟩, rfl, rfl⟩
    by_cases hd : r.device = d
    · subst hd
      exact Or.inr (fun hmem => hnot ⟨rfl, hmem⟩)
    · exact Or.inl hd

theorem hasKey_reconcile_self (d now : Nat) (obs : List κ) (t : List (CacheRow κ))
    (k : κ) :
    hasKey d k ((reconcileTable d now obs t).1) = true ↔ k ∈ obs := by
  unfold reconcileTable
  simp only []
  rw [hasKey_deleteStale, hasKey_upsertAll]
  constructor
  · rintro ⟨(hh | ⟨-, hm⟩), hnot⟩
    · by_cases hk : k ∈ obs
      · exact hk
      · exact absurd ⟨rfl, (mem_staleKeys d obs t k).mpr ⟨hh, hk⟩⟩ hnot
    · exact hm
  · intro hk
    refine ⟨Or.inr ⟨rfl, hk⟩, ?_⟩
    rintro ⟨-, hstale⟩
    exact ((mem_staleKeys d obs t k).mp hstale).2 hk

theorem deleteStale_nil (d : Nat) (t : List (CacheRow κ)) :
    deleteStale d ([] : List κ) t = t := by
  unfold deleteStale
  apply List.filter_eq_self.mpr
  intro r _
  simp

theorem staleKeys_eq_nil (d : Nat) (obs : List κ) (t : List (CacheRow κ))
    (h : ∀ k, hasKey d k t = true → k ∈ obs) : staleKeys d obs t = [] := by
  rw [List.eq_nil_iff_forall_not_mem]
  intro k hk
  rcases (mem_staleKeys d obs t k).mp hk with ⟨hh, hno⟩
  exact hno (h k hh)

theorem reconcileTable_twice (d n1 n2 : Nat) (obs : List κ) (t : List (CacheRow κ)) :
    (reconcileTable d n2 obs (reconcileTable d n1 obs t).1).2 = 0
    ∧ (reconcileTable d n2 obs (reconcileTable d n1 obs t).1).1.length
        = (reconcileTable d n1 obs t).1.length := by
  have hkeys : ∀ k, hasKey d k ((reconcileTable d n1 obs t).1) = true → k ∈ obs :=
    fun k hk => (hasKey_reconcile_self d n1 obs t k).mp hk
  have hstale : staleKeys d obs ((reconcileTable d n1 obs t).1) = [] :=
    staleKeys_eq_nil d obs _ hkeys
  constructor
  · show (staleKeys d obs ((reconcileTable d n1 obs t).1)).length = 0
    rw [hstale]
    rfl
  · show (deleteStale d (staleKeys d obs ((reconcileTable d n1 obs t).1))
        (upsertAll d n2 obs ((reconcileTable d n1 obs t).1))).length
      = (reconcileTable d n1 obs t).1.length
    rw [hstale, deleteStale_nil]
    exact length_upsertAll d n2 obs _
      (fun k hk => (hasKey_reconcile_self d n1 obs t k).mpr hk)

theorem filter_notDev_map_stamp (d now : Nat) (k : κ) (t : List (CacheRow κ)) :
    ((t.map fun r => if rowMatches d k r then { r with stamp := now } else r).filter
        (notDev d))
      = t.filter (notDev d) := by
  induction t with
  | nil => rfl
  | cons r rest ih =>
    by_cases hm : rowMatches d k r = true
    · have hdev : r.device = d := by
        have hm2 := hm
        simp only [rowMatches, Bool.and_eq_true, decide_eq_true_eq] at hm2
        exact hm2.1
      have hnd : notDev d r = false := by simp [notDev, hdev]
      have hnd2 : notDev d ({ r with stamp := now } : CacheRow κ) = false := by
        simp [notDev, hdev]
      rw [List.map_cons, if_pos hm, List.filter_cons, List.filter_cons, hnd, hnd2]
      simpa using ih
    · rw [List.map_cons, if_neg hm, List.filter_cons, List.filter_cons, ih]

theorem upsertRow_frame (d now : Nat) (k : κ) (t : List (CacheRow κ)) :
    (upsertRow d now k t).filter (notDev d) = t.filter (notDev d) := by
  unfold upsertRow
  by_cases h : hasKey d k t = true
  · rw [if_pos h]
    exact filter_notDev_map_stamp d now k t
  · rw [if_neg h, List.filter_append]
    have hone : ([⟨d, k, now⟩] : List (CacheRow κ)).filter (notDev d) = [] := by
      simp [notDev]
    rw [hone, List.append_nil]

theorem upsertAll_frame (d now : Nat) :
    ∀ (ks : List κ) (t : List (CacheRow κ)),
      (upsertAll d now ks t).filter (notDev d) = t.filter (notDev d) := by
  intro ks
  induction ks with
  | nil => intro t; rfl
  | cons k ks ih =>
    intro t
    rw [show upsertAll d now (k :: ks) t = upsertAll d now ks (upsertRow d now k t)
      from rfl]
    rw [ih, upsertRow_frame]

theorem deleteStale_frame (d : Nat) (stale : List κ) (t : List (CacheRow κ)) :
    (deleteStale d stale t).filter (notDev d) = t.filter (notDev d) := by
  unfold deleteStale
  rw [List.filter_filter]
  apply List.filter_congr
  intro r _
  by_cases hd : r.device = d
  · simp [notDev, hd]
  · simp [notDev, hd]

theorem reconcileTable_frame (d now : Nat) (obs : List κ) (t : List (CacheRow κ)) :
    ((reconcileTable d now obs t).1.filter (notDev d)) = t.filter (notDev d) := by
  show ((deleteStale d (staleKeys d obs t) (upsertAll d now obs t)).filter (notDev d))
    = t.filter (notDev d)
  rw [deleteStale_frame, upsertAll_frame]

end CacheLemmas

/-! ## Claim theorems -/

/-- Claim C3: for every certificate with a parseable Common Name, the object
name is the pure deterministic function
`sanitize(CN) ++ "_" ++ notAfter.isoformat()` of (CN, notAfter); the wildcard
CN `*.example.com` with not-after `2026-01-01` yields
`star_example_com_2026-01-01`; identical certificate data yields the identical
name. -/
theorem claim_C3_object_naming :
    (∀ (c : ParsedCert) (cn : String) (rest : List String),
        c.subjectCNs = cn :: rest →
        derive_object_name_from_pem c = .ok (sanitizeCN cn ++ "_" ++ c.notAfterIso))
    ∧ (∀ c₁ c₂ : ParsedCert, c₁ = c₂ →
        derive_object_name_from_pem c₁ = derive_object_name_from_pem c₂)
    ∧ derive_object_name_from_pem ⟨["*.example.com"], "2026-01-01"⟩
        = .ok "star_example_com_2026-01-01" := by
  refine ⟨?_, ?_, by decide⟩
  · intro c cn rest h
    simp [derive_object_name_from_pem, h]
  · intro c₁ c₂ h
    rw [h]

/-- Witness for C3 at the wildcard example. -/
theorem claim_C3_object_naming_witness :
    derive_object_name_from_pem ⟨["*.example.com"], "2026-01-01"⟩
      = .ok (sanitizeCN "*.example.com" ++ "_" ++ "2026-01-01") :=
  claim_C3_object_naming.1 ⟨["*.example.com"], "2026-01-01"⟩ "*.example.com" [] rfl

/-- Claim C9: the object-naming operation raises (the subscript
`get_attributes_for_oid(COMMON_NAME)[0]` raises `IndexError`) whenever the
certificate subject has no parseable Common Name attribute. -/
theorem claim_C9_naming_raises_without_cn (c : ParsedCert)
    (h : c.subjectCNs = []) :
    derive_object_name_from_pem c = .error .indexError := by
  simp [derive_object_name_from_pem, h]

/-- Witness for C9 at a certificate with an empty CN attribute list. -/
theorem claim_C9_naming_raises_without_cn_witness :
    derive_object_name_from_pem ⟨[], "2026-01-01"⟩ = .error .indexError :=
  claim_C9_naming_raises_without_cn ⟨[], "2026-01-01"⟩ rfl

/-- Claim C5 counterexample: with both parses yielding no usable data (every
field null, no SAN, no fingerprint) but the final REST load succeeding,
`verify_cert_object` returns `source = "tmsh-list-empty"`, not the claimed
`"not-found"` marker. -/
theorem claim_C5_counterexample :
    (verify_cert_object "obj" verifyEmptyOneline verifyEmptyOpenssl true).source
        = "tmsh-list-empty"
    ∧ ¬((verify_cert_object "obj" verifyEmptyOneline verifyEmptyOpenssl true).source
        = "not-found") := by
  decide

/-- Claim C5 (amended): when the one-line parse yields no version, SAN entry
or fingerprint and the multi-line parse yields no version or SAN entry,
`verify_cert_object` returns — rather than raising — a result whose detail
fields are all null, marked `"tmsh-list-empty"` when the final REST load of
the object succeeds and `"not-found"` when that load raises. -/
theorem claim_C5_verify_fallback_nulls (name : String) (ol : ParsedOneline)
    (ml : ParsedOpenssl) (loadOk : Bool)
    (h1 : strFalsy ol.version = true) (h2 : ol.san = [])
    (h3 : strFalsy ol.fingerprintSha256 = true)
    (h4 : strFalsy ml.version = true) (h5 : ml.san = []) :
    verify_cert_object name ol ml loadOk
      = ⟨none, none, none, none, none, none, none, some name,
          if loadOk then "tmsh-list-empty" else "not-found"⟩ := by
  simp only [verify_cert_object, h1, h2, h3, h4, h5]
  cases loadOk <;> simp

/-- Witness for C5 (amended) at empty parses with a failing load. -/
theorem claim_C5_verify_fallback_nulls_witness :
    verify_cert_object "obj2" verifyEmptyOneline verifyEmptyOpenssl false
      = ⟨none, none, none, none, none, none, none, some "obj2",
          if false then "tmsh-list-empty" else "not-found"⟩ :=
  claim_C5_verify_fallback_nulls "obj2" verifyEmptyOneline verifyEmptyOpenssl false
    rfl rfl rfl rfl rfl

/-- Claim C1 counterexample: the standalone rewire operation
`update_profiles_with_new_cert` has no none-like safeguard.  With the empty
old certificate name, Python's `"" in cert` matches every profile carrying a
`certKeyChain` entry: the call returns `["p1"]` (not the claimed empty list)
and performs one profile modification (not the claimed zero). -/
theorem claim_C1_counterexample :
    update_profiles_with_new_cert (some "") "newobj" "chain" none [cexProfile]
        (fun _ => none)
      = ([Effect.modifyProfile "p1" "/Common/newobj" "/Common/newobj" "/Common/chain"],
         .ok ["p1"])
    ∧ ¬(((update_profiles_with_new_cert (some "") "newobj" "chain" none [cexProfile]
          (fun _ => none)).2 = .ok [])
        ∧ ((update_profiles_with_new_cert (some "") "newobj" "chain" none [cexProfile]
            (fun _ => none)).1.filter isModifyEffect).length = 0) := by
  decide

/-- Claim C1 (amended): the none-like safeguard belongs to the deploy
orchestrator only.  In `deploy_from_pem_and_update_profiles`, whenever the
old certificate name is `None`, empty, whitespace-only, or case-insensitively
`"none"`/`"null"`, and the upload/install/verification stages succeed, the
rewire step is skipped entirely: the returned `updated_profiles` list is
empty and the effect trace contains no profile modification.  (The standalone
`update_profiles_with_new_cert` performs no such check — see the
counterexample.) -/
theorem claim_C1_amended_deploy_safeguard (dev : DeployDevice)
    (old : Option String) (cn iso chain : String)
    (hold : isNoneLikeOldCert old = true)
    (hcu : ∀ i, uploadRespOk (dev.certUploadResp i).1 = true)
    (hku : ∀ i, uploadRespOk (dev.keyUploadResp i).1 = true)
    (hic : dev.installCertErr = none) (hik : dev.installKeyErr = none)
    (hv : pyStrOpt dev.verification.version = "3")
    (hs : optListFalsy dev.verification.san = false) :
    (deploy_from_pem_and_update_profiles dev old cn iso chain).2
      = .ok { new_cert_object := objectNameOf cn iso,
              new_cert_name := objectNameOf cn iso ++ ".crt",
              new_key_name := objectNameOf cn iso ++ ".key",
              updated_profiles := [], verification := dev.verification }
    ∧ ((deploy_from_pem_and_update_profiles dev old cn iso chain).1.filter
        isModifyEffect) = [] := by
  rw [deploy_unfold dev old cn iso chain hcu hku hic hik]
  rw [if_neg (not_not_intro hv), if_neg (by simp [hs]), if_pos hold]
  exact ⟨rfl, List.filter_eq_nil_iff.mpr (fun e he => by
    simp [deployBaseEffects_not_modify dev cn iso e he])⟩

/-- Witness for C1 (amended): a concrete deployment with `old = "NULL"`. -/
theorem claim_C1_amended_deploy_safeguard_witness :
    (deploy_from_pem_and_update_profiles devAccept (some "NULL") "*.example.com"
        "2026-01-01" "chainX").2
      = .ok { new_cert_object := objectNameOf "*.example.com" "2026-01-01",
              new_cert_name := objectNameOf "*.example.com" "2026-01-01" ++ ".crt",
              new_key_name := objectNameOf "*.example.com" "2026-01-01" ++ ".key",
              updated_profiles := [], verification := devAccept.verification }
    ∧ ((deploy_from_pem_and_update_profiles devAccept (some "NULL") "*.example.com"
        "2026-01-01" "chainX").1.filter isModifyEffect) = [] :=
  claim_C1_amended_deploy_safeguard devAccept (some "NULL") "*.example.com"
    "2026-01-01" "chainX" (by decide) (fun _ => rfl) (fun _ => rfl) rfl rfl rfl rfl

/-- Claim C2: once both uploads and installs have succeeded, the orchestrator
accepts the installation exactly when the verification result reports version
`"3"` and a non-empty SAN list; in every other case it raises one of the two
post-install verification failures; and in all cases the trace keeps the
install commands and contains no cleanup (deletion) call. -/
theorem claim_C2_verification_gate (dev : DeployDevice) (old : Option String)
    (cn iso chain : String)
    (hcu : ∀ i, uploadRespOk (dev.certUploadResp i).1 = true)
    (hku : ∀ i, uploadRespOk (dev.keyUploadResp i).1 = true)
    (hic : dev.installCertErr = none) (hik : dev.installKeyErr = none) :
    ((pyStrOpt dev.verification.version = "3"
        ∧ optListFalsy dev.verification.san = false)
      ↔ ¬ isVerifFailure (deploy_from_pem_and_update_profiles dev old cn iso chain).2)
    ∧ (¬(pyStrOpt dev.verification.version = "3"
          ∧ optListFalsy dev.verification.san = false) →
        (deploy_from_pem_and_update_profiles dev old cn iso chain).2
            = .error (.valueError verFailVersionMsg)
          ∨ (deploy_from_pem_and_update_profiles dev old cn iso chain).2
            = .error (.valueError verFailSanMsg))
    ∧ Effect.installCert (objectNameOf cn iso)
        ∈ (deploy_from_pem_and_update_profiles dev old cn iso chain).1
    ∧ Effect.installKey (objectNameOf cn iso)
        ∈ (deploy_from_pem_and_update_profiles dev old cn iso chain).1
    ∧ (∀ e ∈ (deploy_from_pem_and_update_profiles dev old cn iso chain).1,
        isDeleteEffect e = false) := by
  rw [deploy_unfold dev old cn iso chain hcu hku hic hik]
  by_cases hv : pyStrOpt dev.verification.version = "3"
  · rw [if_neg (not_not_intro hv)]
    by_cases hs : optListFalsy dev.verification.san = true
    · rw [if_pos hs]
      refine ⟨?_, fun _ => Or.inr rfl, mem_installCert_base dev cn iso,
        mem_installKey_base dev cn iso, deployBaseEffects_not_delete dev cn iso⟩
      constructor
      · rintro ⟨-, hsf⟩
        simp [hs] at hsf
      · intro hnot
        exact absurd (Or.inr rfl) hnot
    · rw [if_neg hs]
      have hs' : optListFalsy dev.verification.san = false := by
        simpa using hs
      by_cases hnl : isNoneLikeOldCert old = true
      · rw [if_pos hnl]
        refine ⟨?_, fun hcontra => absurd ⟨hv, hs'⟩ hcontra,
          mem_installCert_base dev cn iso, mem_installKey_base dev cn iso,
          deployBaseEffects_not_delete dev cn iso⟩
        constructor
        · rintro - (hvf | hvf) <;> cases hvf
        · intro _
          exact ⟨hv, hs'⟩
      · rw [if_neg hnl]
        rcases hr3 : deployRewireLoop old (objectNameOf cn iso) ("/Common/" ++ chain)
            dev.modifyErr dev.ssl_profiles [] [] with ⟨e3, r3⟩
        have heff : ∀ e ∈ deployBaseEffects dev cn iso ++ e3, isDeleteEffect e = false := by
          intro e he
          rcases List.mem_append.mp he with he | he
          · exact deployBaseEffects_not_delete dev cn iso e he
          · have hmm := deployRewireLoop_effects old (objectNameOf cn iso)
              ("/Common/" ++ chain) dev.modifyErr dev.ssl_profiles [] [] e
              (by rw [hr3]; exact he)
            rcases hmm with hmem | hmod
            · exact absurd hmem (List.not_mem_nil e)
            · cases e <;> simp_all [isModifyEffect, isDeleteEffect]
        cases r3 with
        | error err =>
          have hshape := deployRewireLoop_error_shape old (objectNameOf cn iso)
            ("/Common/" ++ chain) dev.modifyErr dev.ssl_profiles [] [] err
            (by rw [hr3])
          have hnotvf : ¬ isVerifFailure (Except.error err : Except PyErr DeployResult) := by
            rcases hshape with ⟨m, rfl⟩ | ⟨m, rfl⟩ <;>
              rintro (hvf | hvf) <;> simp [verFailVersionMsg, verFailSanMsg] at hvf
          exact ⟨⟨fun _ => hnotvf, fun _ => ⟨hv, hs'⟩⟩,
            fun hcontra => absurd ⟨hv, hs'⟩ hcontra,
            List.mem_append.mpr (Or.inl (mem_installCert_base dev cn iso)),
            List.mem_append.mpr (Or.inl (mem_installKey_base dev cn iso)), heff⟩
        | ok updated =>
          refine ⟨⟨fun _ => ?_, fun _ => ⟨hv, hs'⟩⟩,
            fun hcontra => absurd ⟨hv, hs'⟩ hcontra,
            List.mem_append.mpr (Or.inl (mem_installCert_base dev cn iso)),
            List.mem_append.mpr (Or.inl (mem_installKey_base dev cn iso)), heff⟩
          rintro (hvf | hvf) <;> cases hvf
  · rw [if_pos hv]
    refine ⟨?_, fun _ => Or.inl rfl, mem_installCert_base dev cn iso,
      mem_installKey_base dev cn iso, deployBaseEffects_not_delete dev cn iso⟩
    constructor
    · rintro ⟨h3, -⟩
      exact absurd h3 hv
    · intro hnot
      exact absurd (Or.inl rfl) hnot

/-- Witness for C2: the fixture device reporting version 1 with an empty SAN
list is rejected with the version failure. -/
theorem claim_C2_verification_gate_witness :
    (deploy_from_pem_and_update_profiles devRejectV1 (some "old") "cn.example"
          "2026-01-01" "ch").2
        = .error (.valueError verFailVersionMsg)
      ∨ (deploy_from_pem_and_update_profiles devRejectV1 (some "old") "cn.example"
          "2026-01-01" "ch").2
        = .error (.valueError verFailSanMsg) :=
  (claim_C2_verification_gate devRejectV1 (some "old") "cn.example" "2026-01-01" "ch"
    (fun _ => rfl) (fun _ => rfl) rfl rfl).2.1 (by decide)

/-- Claim C8: the chunked upload posts the payload as consecutive chunks of
at most 1 MiB whose inclusive ranges `start-(end-1)/total` are contiguous,
non-overlapping and cover exactly the whole payload; when every response is
200/202 it posts all chunks and returns the device staging path; the first
response outside {200, 202} aborts the whole upload by raising, after posting
exactly the chunks up to and including the failed one; and no cleanup
(deletion) call is ever made. -/
theorem claim_C8_chunked_upload (size : Nat) (fn : String)
    (resp : Nat → Nat × String) :
    coversRangeB 0 size (chunkRanges size) = true
    ∧ (∀ pr ∈ chunkRanges size, pr.2 - pr.1 ≤ uploadChunkSize)
    ∧ ((∀ j, j < (chunkRanges size).length → uploadRespOk (resp j).1 = true) →
        _rest_upload_bytes size fn resp
          = ((chunkRanges size).map (fun pr => Effect.postChunk fn pr.1 (pr.2 - 1) size),
             .ok (uploadStagingPath fn)))
    ∧ (∀ k, k < (chunkRanges size).length →
        (∀ j, j < k → uploadRespOk (resp j).1 = true) →
        uploadRespOk (resp k).1 = false →
        _rest_upload_bytes size fn resp
          = (((chunkRanges size).take (k + 1)).map
              (fun pr => Effect.postChunk fn pr.1 (pr.2 - 1) size),
             .error (.valueError ("Upload failed for " ++ fn ++ ": "
               ++ toString (resp k).1 ++ " " ++ (resp k).2))))
    ∧ (∀ e ∈ (_rest_upload_bytes size fn resp).1, isDeleteEffect e = false) := by
  refine ⟨?_, ?_, ?_, ?_, ?_⟩
  · exact chunkRangesAux_covers size size 0 (Nat.zero_le _) (by omega)
  · intro pr hpr
    exact chunkRangesAux_le size size 0 pr hpr
  · intro hok
    have h := restUploadAux_eq_of_ok fn size resp size 0 0
      (fun j hj => by simpa using hok j (by simpa [chunkRanges] using hj))
    simpa [_rest_upload_bytes, chunkRanges] using h
  · intro k hk hpre hbad
    have h := restUploadAux_eq_of_firstBad fn size resp size 0 0 k
      (by simpa [chunkRanges] using hk)
      (fun j hj => by simpa using hpre j hj)
      (by simpa using hbad)
    simpa [_rest_upload_bytes, chunkRanges] using h
  · intro e he
    obtain ⟨s, en, rfl⟩ := restUploadAux_effects_post fn size resp size 0 0 e
      (by simpa [_rest_upload_bytes] using he)
    rfl

/-- Witness for C8: a 2 MiB + 5 byte payload whose second chunk is answered
with status 500 — the upload aborts after posting chunks 0 and 1. -/
theorem claim_C8_chunked_upload_witness :
    _rest_upload_bytes (2 * 1024 * 1024 + 5) "f.crt" respFailAt1
      = (((chunkRanges (2 * 1024 * 1024 + 5)).take 2).map
          (fun pr => Effect.postChunk "f.crt" pr.1 (pr.2 - 1) (2 * 1024 * 1024 + 5)),
         .error (.valueError ("Upload failed for f.crt: "
           ++ toString (respFailAt1 1).1 ++ " " ++ (respFailAt1 1).2))) :=
  (claim_C8_chunked_upload (2 * 1024 * 1024 + 5) "f.crt" respFailAt1).2.2.2.1 1
    (by decide) (fun j hj => by
      have hj0 : j = 0 := by omega
      subst hj0
      decide) (by decide)

/-- Claim C6: when the modification of profile `p` fails during
`update_profiles_with_new_cert`, the operation raises immediately at `p`: the
whole result is the raised `ValueError` built only from the failing profile's
name and the device's error text (so the accumulated updated-profile list is
in neither the error nor any return value), the effect trace is exactly the
modifications of the matching profiles before `p` (which therefore remain
modified — no rollback), and no profile after `p` is modified. -/
theorem claim_C6_rewire_failure_semantics (s new_cert_name chain_name errText : String)
    (pre post : List SslProfile) (p : SslProfile)
    (modifyErr : String → Option String)
    (hpre : ∀ q ∈ pre, certMatchesB s q = true → modifyErr q.name = none)
    (hmatch : certMatchesB s p = true)
    (hfail : modifyErr p.name = some errText) :
    update_profiles_with_new_cert (some s) new_cert_name chain_name none
        (pre ++ p :: post) modifyErr
      = (matchedModifies s new_cert_name ("/Common/" ++ chain_name) pre,
         .error (.valueError (updateFailMsg p.name errText))) := by
  unfold update_profiles_with_new_cert
  simp only [selActive, List.isEmpty_nil, Bool.not_false, Bool.false_eq_true, if_false]
  exact updateProfilesLoop_prefix_fail s new_cert_name ("/Common/" ++ chain_name)
    errText p post modifyErr hmatch hfail pre [] [] hpre

/-- Witness for C6: three matching profiles where the second one's `modify`
fails — only the first is modified and the error names the second. -/
theorem claim_C6_rewire_failure_semantics_witness :
    update_profiles_with_new_cert (some "old_cert") "newobj" "ch" none
        [profQ1, profP2, profR3] modifyFailP2
      = (matchedModifies "old_cert" "newobj" ("/Common/" ++ "ch") [profQ1],
         .error (.valueError (updateFailMsg "p2" "boom"))) :=
  claim_C6_rewire_failure_semantics "old_cert" "newobj" "ch" "boom" [profQ1] [profR3]
    profP2 modifyFailP2 (by decide) (by decide) (by decide)

/-- Claim C4: with no change in the live device state (the same oracle) and
no interleaved writer, a second reconciliation run reports zero deleted rows
and leaves the row count of each of the three cache tables unchanged. -/
theorem claim_C4_reconcile_idempotent (d now1 now2 : Nat) (o : CacheOracle)
    (st st1 : CacheState) (n1 : Nat) (m1 : String)
    (h1 : refresh_device_profiles_cache d now1 o st = (st1, .success n1 m1)) :
    (∃ m2, (refresh_device_profiles_cache d now2 o st1).2 = .success 0 m2)
    ∧ (refresh_device_profiles_cache d now2 o st1).1.profilesTable.length
        = st1.profilesTable.length
    ∧ (refresh_device_profiles_cache d now2 o st1).1.linksTable.length
        = st1.linksTable.length
    ∧ (refresh_device_profiles_cache d now2 o st1).1.vipsTable.length
        = st1.vipsTable.length := by
  unfold refresh_device_profiles_cache at h1 ⊢
  cases hobs : observedFor o with
  | error e =>
    rw [hobs] at h1
    simp [Prod.mk.injEq] at h1
  | ok obs =>
    rw [hobs] at h1
    cases hw : o.writeErr with
    | some e =>
      rw [hw] at h1
      simp [Prod.mk.injEq] at h1
    | none =>
      rw [hw] at h1
      have hst : st1 = ⟨(reconcileTable d now1 obs.profileKeys st.profilesTable).1,
          (reconcileTable d now1 obs.linkKeys st.linksTable).1,
          (reconcileTable d now1 obs.vipKeys st.vipsTable).1⟩ :=
        (congrArg Prod.fst h1).symm
      subst hst
      have hp := reconcileTable_twice d now1 now2 obs.profileKeys st.profilesTable
      have hl := reconcileTable_twice d now1 now2 obs.linkKeys st.linksTable
      have hv := reconcileTable_twice d now1 now2 obs.vipKeys st.vipsTable
      refine ⟨⟨"Cache built (delta): deleted=" ++ toString 0, ?_⟩, hp.2, hl.2, hv.2⟩
      simp [hp.1, hl.1, hv.1]

/-- Witness for C4: the one-certificate oracle run from the empty state; the
second run deletes nothing and keeps all three table sizes. -/
theorem claim_C4_reconcile_idempotent_witness :
    (∃ m2, (refresh_device_profiles_cache 1 9 oracleOneCert stateAfterFirstRun).2
        = .success 0 m2)
    ∧ (refresh_device_profiles_cache 1 9 oracleOneCert stateAfterFirstRun).1.profilesTable.length
        = stateAfterFirstRun.profilesTable.length
    ∧ (refresh_device_profiles_cache 1 9 oracleOneCert stateAfterFirstRun).1.linksTable.length
        = stateAfterFirstRun.linksTable.length
    ∧ (refresh_device_profiles_cache 1 9 oracleOneCert stateAfterFirstRun).1.vipsTable.length
        = stateAfterFirstRun.vipsTable.length :=
  claim_C4_reconcile_idempotent 1 7 9 oracleOneCert ⟨[], [], []⟩ stateAfterFirstRun 0
    "Cache built (delta): deleted=0" (by decide)

/-- Claim C7: any exception during a reconciliation run — a failing device
query during row computation, or a failing database write — is not propagated
to the caller: the state is returned unchanged (the transaction is rolled
back) together with a structured result whose status is `"error"` and whose
message is the underlying exception message. -/
theorem claim_C7_soft_error (d now : Nat) (o : CacheOracle) (st : CacheState) :
    (∀ e, observedFor o = .error e →
      refresh_device_profiles_cache d now o st = (st, .failure e)
      ∧ (RefreshResult.failure e).status = "error")
    ∧ (∀ e obs, observedFor o = .ok obs → o.writeErr = some e →
      refresh_device_profiles_cache d now o st = (st, .failure e)
      ∧ (RefreshResult.failure e).status = "error") := by
  constructor
  · intro e he
    unfold refresh_device_profiles_cache
    rw [he]
    exact ⟨rfl, rfl⟩
  · intro e obs hobs hw
    unfold refresh_device_profiles_cache
    rw [hobs, hw]
    exact ⟨rfl, rfl⟩

/-- Witness for C7: a run whose live usage query raises is returned as a soft
error with the query's message and an unchanged (empty) state. -/
theorem claim_C7_soft_error_witness :
    refresh_device_profiles_cache 1 0 oracleUsageFails ⟨[], [], []⟩
      = (⟨[], [], []⟩, .failure "connection refused")
    ∧ (RefreshResult.failure "connection refused").status = "error" :=
  (claim_C7_soft_error 1 0 oracleUsageFails ⟨[], [], []⟩).1 "connection refused" rfl

/-- Claim C10: a reconciliation run for device `d` only touches rows of
device `d`: the sublist of rows belonging to every other device — order,
keys and payload included — is unchanged in each of the three cache tables,
on the success path and on the rolled-back error path alike. -/
theorem claim_C10_device_frame (d now : Nat) (o : CacheOracle) (st : CacheState) :
    ((refresh_device_profiles_cache d now o st).1.profilesTable.filter (notDev d)
        = st.profilesTable.filter (notDev d))
    ∧ ((refresh_device_profiles_cache d now o st).1.linksTable.filter (notDev d)
        = st.linksTable.filter (notDev d))
    ∧ ((refresh_device_profiles_cache d now o st).1.vipsTable.filter (notDev d)
        = st.vipsTable.filter (notDev d)) := by
  unfold refresh_device_profiles_cache
  cases hobs : observedFor o with
  | error e => exact ⟨rfl, rfl, rfl⟩
  | ok obs =>
    cases hw : o.writeErr with
    | some e => exact ⟨rfl, rfl, rfl⟩
    | none =>
      exact ⟨reconcileTable_frame d now obs.profileKeys st.profilesTable,
        reconcileTable_frame d now obs.linkKeys st.linksTable,
        reconcileTable_frame d now obs.vipKeys st.vipsTable⟩

end CertEngine
